import Mathlib

/-!
Verification development for the Check resource-management service of
motongb/influxdb: the entity model and HTTP binding layer are embedded from
the Go sources (`check.go`, the `http` check handler file); the storage
service itself (create/find/update/delete against a backend) is not among
the provided sources, so it is modelled from the specification (§4.1) and
checked against the conformance suite's expectations.

Machine integers: Go `uint64` identifiers are modelled as `Nat` (the zero
identifier is the invalid one, and no arithmetic overflows occur in the
modelled operations); `time.Time` is modelled as `Nat` (0 = Go's zero time).
-/

namespace Influx

/-- Error codes of the structured error taxonomy (`EInvalid`, `ENotFound`,
`EConflict`, `EUnprocessableEntity`, `EInternal`). -/
inductive ErrCode where
  | EInternal
  | ENotFound
  | EConflict
  | EInvalid
  | EUnprocessableEntity
deriving DecidableEq

/-- Structured error, from `influxdb.Error`: an optional taxonomy code, a
human message, an operation name, and an optional wrapped cause.  A plain Go
error (e.g. one produced by `fmt.Errorf` or a parser) is modelled as an
`Error` with `Code = none`, `Op = ""` and no cause. -/
inductive Error where
  | mk (Code : Option ErrCode) (Msg : String) (Op : String) (Err : Option Error)

/-- The taxonomy code of an error. -/
def Error.Code : Error → Option ErrCode
  | .mk c _ _ _ => c

/-- The human message of an error. -/
def Error.Msg : Error → String
  | .mk _ m _ _ => m

/-- The operation name of an error. -/
def Error.Op : Error → String
  | .mk _ _ o _ => o

/-- The wrapped cause of an error. -/
def Error.Err : Error → Option Error
  | .mk _ _ _ e => e

/-- Models `err.Error()` on a plain error: its message text. -/
def Error.text (e : Error) : String := e.Msg

/-- Go `influxdb.ID` (uint64); 0 is the invalid identifier. -/
abbrev GoID := Nat

/-- Modelled from the spec: `ID.Valid()` — "organization id must be
valid/non-zero" (§4.2); the identifier sources are not provided. -/
def idValid (i : GoID) : Bool := i != 0

-- ops for checks error (src/check.go:40-47)

/-- Operation name constant `OpFindCheckByID`. -/
def OpFindCheckByID : String := "FindCheckByID"

/-- Operation name constant `OpFindCheck`. -/
def OpFindCheck : String := "FindCheck"

/-- Operation name constant `OpFindChecks`. -/
def OpFindChecks : String := "FindChecks"

/-- Operation name constant `OpCreateCheck`. -/
def OpCreateCheck : String := "CreateCheck"

/-- Operation name constant `OpUpdateCheck`. -/
def OpUpdateCheck : String := "UpdateCheck"

/-- Operation name constant `OpDeleteCheck`. -/
def OpDeleteCheck : String := "DeleteCheck"

/-- `CheckDefaultPageSize` (src/check.go:6). -/
def CheckDefaultPageSize : Int := 100

/-- `CheckMaxPageSize` (src/check.go:7). -/
def CheckMaxPageSize : Int := 500

/-- A tag k/v pair used when a check writes to the system bucket
(src/check.go:50-53). -/
structure CheckTag where
  key : String
  value : String
deriving DecidableEq

/-- `CheckTag.Valid` (src/check.go:56-64): an `EInvalid` error if the tag is
missing a key or a value, otherwise no error. -/
def CheckTag.Valid (t : CheckTag) : Option Error :=
  if t.key = "" || t.value = "" then
    some (Error.mk (some .EInvalid) "checktag must contain a key and a value" "" none)
  else
    none

/-- The created-at/updated-at audit pair embedded in CRUD-managed entities. -/
structure CRUDLog where
  CreatedAt : Nat
  UpdatedAt : Nat
deriving DecidableEq

/-- The `Check` record (src/check.go:11-37).  The read-only `Task` response
decoration is not part of the stored record and is omitted. -/
structure Check where
  ID : GoID
  OrganizationID : GoID
  TaskID : GoID
  Tags : List CheckTag
  StatusMessageTemplate : String
  Query : String
  Name : String
  Description : String
  crudLog : CRUDLog
deriving DecidableEq

/-- The zero-valued `influxdb.Check{}`. -/
def Check.zero : Check :=
  { ID := 0, OrganizationID := 0, TaskID := 0, Tags := [],
    StatusMessageTemplate := "", Query := "", Name := "", Description := "",
    crudLog := { CreatedAt := 0, UpdatedAt := 0 } }

/-- `CheckUpdate` (src/check.go:90-98): the partial-update descriptor.  Its
fields are exactly `StatusMessageTemplate`, `Tags`, `Query`, `Status` and
`Description`; there is no `Name` field. -/
structure CheckUpdate where
  StatusMessageTemplate : Option String
  Tags : Option (List CheckTag)
  Query : Option String
  Status : Option String
  Description : Option String
deriving DecidableEq

/-- The `CheckUpdate{}` carrying no present field. -/
def CheckUpdate.empty : CheckUpdate :=
  { StatusMessageTemplate := none, Tags := none, Query := none,
    Status := none, Description := none }

/-- `CheckFilter` (src/check.go:101-107). -/
structure CheckFilter where
  ID : Option GoID
  Name : Option String
  OrganizationID : Option GoID
  Org : Option String
  Limit : Int
deriving DecidableEq

/-- The `CheckFilter{}` with every field absent and `Limit` zero. -/
def CheckFilter.empty : CheckFilter :=
  { ID := none, Name := none, OrganizationID := none, Org := none, Limit := 0 }

/-- Modelled from the spec: `FindOptions` (§3) — pagination/sort descriptor
with `Offset` (skip count, default 0), `Limit` (0 = no cap in the Go zero
value), `Descending`; the defining source file is not provided. -/
structure FindOptions where
  Offset : Nat
  Limit : Nat
  Descending : Bool
deriving DecidableEq

/-- The zero `FindOptions`. -/
def FindOptions.default : FindOptions :=
  { Offset := 0, Limit := 0, Descending := false }

/-- Modelled from the spec: an `Organization` as used by the service for the
existence check and by the conformance suite's seeds (identifier and name);
the organization sources are not provided. -/
structure Organization where
  ID : GoID
  Name : String
deriving DecidableEq

/-- The stored state a check-service backend operates on: the seeded
organizations and the stored checks (list order = insertion order, the
stable ordering key used by `FindChecks`). -/
structure ServiceState where
  orgs : List Organization
  checks : List Check
deriving DecidableEq

/-- Modelled from the spec: `Check.Valid()` — "validates check.Valid()
(non-empty name, valid tags)" (§4.1, §3 invariants); the implementing source
is not provided.  Returns the first validation error, if any. -/
def Check.Valid (c : Check) : Option Error :=
  if c.Name = "" then
    some (Error.mk (some .EInvalid) "check name cannot be empty" "" none)
  else
    c.Tags.findSome? CheckTag.Valid

/-- Persisting a record into the identifier-keyed backing store: a record
with the same identifier is overwritten in place, otherwise the record is
appended (a map keyed by `ID`, in insertion order). -/
def putCheck (l : List Check) (c : Check) : List Check :=
  if l.any (fun k => k.ID == c.ID) then
    l.map (fun k => if k.ID == c.ID then c else k)
  else
    l ++ [c]

/-- Modelled from the spec: `CreateCheck` (§4.1) — validates the check,
verifies the organization exists (`NotFound` "organization not found"),
verifies name uniqueness within the organization (`Conflict` "check with
name X already exists"), assigns the identifier from the injected generator,
stamps both timestamps with the injected clock, then persists; the backend
implementation is not among the provided sources.  Error messages, codes and
operation names follow the conformance suite (src/unnamed/part_004).  The
second component is the stored state after the call (unchanged on error). -/
def createCheck (gen now : Nat) (s : ServiceState) (c : Check) :
    Except Error Check × ServiceState :=
  match c.Valid with
  | some e => (.error (Error.mk e.Code e.Msg OpCreateCheck e.Err), s)
  | none =>
    if s.orgs.any (fun o => o.ID == c.OrganizationID) then
      if s.checks.any (fun k => k.Name == c.Name && k.OrganizationID == c.OrganizationID) then
        (.error (Error.mk (some .EConflict)
          ("check with name " ++ c.Name ++ " already exists") OpCreateCheck none), s)
      else
        let nc := { c with ID := gen, crudLog := { CreatedAt := now, UpdatedAt := now } }
        (.ok nc, { s with checks := putCheck s.checks nc })
    else
      (.error (Error.mk (some .ENotFound) "organization not found" OpCreateCheck none), s)

/-- Modelled from the spec: `FindCheckByID` (§4.1) — exact lookup, `NotFound`
"check not found" (conformance suite) if no record has the identifier. -/
def findCheckByID (s : ServiceState) (i : GoID) : Except Error Check :=
  match s.checks.find? (fun c => c.ID == i) with
  | some c => .ok c
  | none => .error (Error.mk (some .ENotFound) "check not found" OpFindCheckByID none)

/-- Does a check pass the (organization-resolved) filter?  Absent fields are
wildcards; fields compose with logical AND (§3). -/
def checkMatches (idF : Option GoID) (nameF : Option String) (orgF : Option GoID)
    (c : Check) : Bool :=
  (idF.all (fun i => c.ID == i)) &&
  (nameF.all (fun n => c.Name == n)) &&
  (orgF.all (fun o => c.OrganizationID == o))

/-- Modelled from the spec: `FindChecks` (§4.1, §3) — resolves an `Org` name
filter through the organization set, filters first, then sorts (list order is
the stable ordering key; `Descending` reverses it), then slices by
`Offset`/`Limit` (`Limit` 0 = no cap); the returned count is the unsliced
match count.  The backend implementation is not among the provided sources. -/
def findChecks (s : ServiceState) (f : CheckFilter) (opts : FindOptions) :
    Except Error (List Check × Nat) :=
  let orgF : Except Error (Option GoID) :=
    match f.Org with
    | none => .ok f.OrganizationID
    | some nm =>
      match s.orgs.find? (fun o => o.Name == nm) with
      | some o => .ok (some o.ID)
      | none => .error (Error.mk (some .ENotFound)
          ("organization name \"" ++ nm ++ "\" not found") OpFindChecks none)
  match orgF with
  | .error e => .error e
  | .ok oid =>
    let matched := s.checks.filter (checkMatches f.ID f.Name oid)
    let sorted := if opts.Descending then matched.reverse else matched
    let paged := sorted.drop opts.Offset
    let paged := if opts.Limit > 0 then paged.take opts.Limit else paged
    .ok (paged, matched.length)

/-- Applies the present fields of a `CheckUpdate` onto a stored check and
stamps `UpdatedAt` (§3: a present field replaces the stored field, an absent
field leaves it untouched; `Tags` replaces the list wholesale).  `Status` has
no corresponding stored field on `Check` (src/check.go commented it out), so
it changes nothing.  `CheckUpdate` has no `Name` field, so the name is
necessarily unchanged. -/
def applyCheckUpdate (u : CheckUpdate) (now : Nat) (c : Check) : Check :=
  { c with
    StatusMessageTemplate := u.StatusMessageTemplate.getD c.StatusMessageTemplate,
    Tags := u.Tags.getD c.Tags,
    Query := u.Query.getD c.Query,
    Description := u.Description.getD c.Description,
    crudLog := { c.crudLog with UpdatedAt := now } }

/-- Modelled from the spec: `UpdateCheck` (§4.1) — loads the record
(`NotFound` if absent), applies each present field of the update onto a copy,
re-validates name uniqueness within the organization if the name changed
(`Conflict` "check name is not unique"), stamps `UpdatedAt`, persists and
returns the result; the backend implementation is not among the provided
sources.  Because the `CheckUpdate` type of src/check.go carries no `Name`
field, the name-change branch is unreachable.  The second component is the
stored state after the call (unchanged on error). -/
def updateCheck (now : Nat) (s : ServiceState) (i : GoID) (u : CheckUpdate) :
    Except Error Check × ServiceState :=
  match s.checks.find? (fun c => c.ID == i) with
  | none => (.error (Error.mk (some .ENotFound) "check not found" OpUpdateCheck none), s)
  | some c =>
    let c' := applyCheckUpdate u now c
    if c'.Name != c.Name &&
        s.checks.any (fun k => k.ID != i && k.Name == c'.Name
          && k.OrganizationID == c.OrganizationID) then
      (.error (Error.mk (some .EConflict) "check name is not unique" OpUpdateCheck none), s)
    else
      (.ok c', { s with checks := s.checks.map (fun k => if k.ID == i then c' else k) })

/-- Modelled from the spec: `DeleteCheck` (§4.1) — hard-deletes the record
with the given identifier, `NotFound` "check not found" (conformance suite)
if absent; the backend implementation is not among the provided sources.
The second component is the stored state after the call. -/
def deleteCheck (s : ServiceState) (i : GoID) : Option Error × ServiceState :=
  if s.checks.any (fun c => c.ID == i) then
    (none, { s with checks := s.checks.filter (fun c => c.ID != i) })
  else
    (some (Error.mk (some .ENotFound) "check not found" OpDeleteCheck none), s)

/-!
HTTP binding layer, embedded from the `http` check handler file
(src/unnamed/part_000).  Each decode function takes the raw inputs the Go
code reads from the request (query-parameter string, path-parameter string,
and the outcome of the external parsers it invokes, passed as values).
-/

/-- Models `strconv.Atoi`: an optional single `+`/`-` sign followed by at
least one ASCII decimal digit, rejecting anything else, and rejecting values
outside the signed 64-bit range (Go returns `ErrRange` there, which the
caller treats as failure). -/
def goAtoi (s : String) : Option Int :=
  let cs := s.toList
  let (neg, digits) :=
    match cs with
    | '-' :: rest => (true, rest)
    | '+' :: rest => (false, rest)
    | _ => (false, cs)
  if digits = [] then none
  else if digits.all Char.isDigit then
    let n : Nat := digits.foldl (fun a c => a * 10 + (c.toNat - '0'.toNat)) 0
    let v : Int := if neg then -(n : Int) else (n : Int)
    if v < -(2 ^ 63) ∨ 2 ^ 63 - 1 < v then none else some v
  else none

/-- `decodeGetChecksRequest` (src/unnamed/part_000:107-128).  `limitParam` is
the string `r.URL.Query().Get("limit")` returns (the empty string when the
parameter is absent).  A `strconv.Atoi` failure is returned as the parser's
plain error; an out-of-range limit is an `EUnprocessableEntity` error; an
absent parameter yields the default page size. -/
def decodeGetChecksRequest (limitParam : String) : Except Error CheckFilter :=
  if limitParam ≠ "" then
    match goAtoi limitParam with
    | none => .error (Error.mk none
        ("strconv.Atoi: parsing \"" ++ limitParam ++ "\": invalid syntax") "" none)
    | some lim =>
      if lim < 1 ∨ lim > CheckMaxPageSize then
        .error (Error.mk (some .EUnprocessableEntity)
          ("limit must be between 1 and " ++ toString CheckMaxPageSize) "" none)
      else
        .ok { CheckFilter.empty with Limit := lim }
  else
    .ok { CheckFilter.empty with Limit := CheckDefaultPageSize }

/-- `handleGetChecks` (src/unnamed/part_000:73-101) returns before calling
`CheckService.FindChecks` exactly when decoding fails; this flag is whether
the service is invoked for a given `limit` query parameter. -/
def handleGetChecksCallsService (limitParam : String) : Bool :=
  (decodeGetChecksRequest limitParam).isOk

/-- The error `handleGetChecks` (src/unnamed/part_000:88-94) passes to
`HandleHTTPError` when `CheckService.FindChecks` fails: the service error is
wrapped in a fresh error with message "failed to find checks" and no code. -/
def handleGetChecksServiceError (e : Error) : Error :=
  Error.mk none "failed to find checks" "" (some e)

/-- The error `handleGetCheck` (src/unnamed/part_000:194-198) passes to
`HandleHTTPError` when `CheckService.FindCheckByID` fails: the service error
itself, unmodified. -/
def handleGetCheckServiceError (e : Error) : Error := e

/-- The error `handleCreateCheck` (src/unnamed/part_000:141-144) passes to
`HandleHTTPError` when `CheckService.CreateCheck` fails: the service error
itself, unmodified. -/
def handleCreateCheckServiceError (e : Error) : Error := e

/-- The error `handleUpdateCheck` (src/unnamed/part_000:250-254) passes to
`HandleHTTPError` when `CheckService.UpdateCheck` fails: the service error
itself, unmodified. -/
def handleUpdateCheckServiceError (e : Error) : Error := e

/-- The error `handleDeleteCheck` (src/unnamed/part_000:317-320) passes to
`HandleHTTPError` when `CheckService.DeleteCheck` fails: the service error
itself, unmodified. -/
def handleDeleteCheckServiceError (e : Error) : Error := e

/-- The internal serialization type `check` (src/unnamed/part_000:63-65): a
struct with no fields. -/
structure check where
deriving DecidableEq

/-- `check.toInfluxDB` (src/unnamed/part_000:68-70): always produces the
zero-valued `influxdb.Check{}` (and never an error). -/
def check.toInfluxDB (_ : check) : Except Error Check := .ok Check.zero

/-- `postCheckRequest.Validate` (src/unnamed/part_000:157-162): a plain
`fmt.Errorf` error when the organization identifier is not valid. -/
def postCheckRequestValidate (c : Check) : Option Error :=
  if idValid c.OrganizationID then none
  else some (Error.mk none "check requires an organization" "" none)

/-- `decodePostCheckRequest` (src/unnamed/part_000:164-180).  `body` is the
outcome of `json.NewDecoder(r.Body).Decode(c)` into the fieldless `check`
struct (an `.ok` for a body that decodes, the decoder's plain error
otherwise, forwarded unwrapped). -/
def decodePostCheckRequest (body : Except Error check) : Except Error Check :=
  match body with
  | .error e => .error e
  | .ok c =>
    match c.toInfluxDB with
    | .error e => .error e
    | .ok ic =>
      match postCheckRequestValidate ic with
      | some e => .error e
      | none => .ok ic

/-- `handleCreateCheck` (src/unnamed/part_000:131-151) returns before calling
`CheckService.CreateCheck` exactly when decoding fails; this flag is whether
the service is invoked for a given body-decode outcome. -/
def handleCreateCheckCallsService (body : Except Error check) : Bool :=
  (decodePostCheckRequest body).isOk

/-- `decodeGetCheckRequest` (src/unnamed/part_000:218-237).  `idParam` is
`params.ByName("id")` (empty when missing); `parse` is `ID.DecodeFromString`,
whose failure is returned as-is, unwrapped. -/
def decodeGetCheckRequest (parse : String → Except Error GoID) (idParam : String) :
    Except Error GoID :=
  if idParam = "" then
    .error (Error.mk (some .EInvalid) "url missing id" "" none)
  else
    match parse idParam with
    | .error e => .error e
    | .ok i => .ok i

/-- `decodeDeleteCheckRequest` (src/unnamed/part_000:331-350): identical
structure to the GET decoder — an identifier-parse failure is returned
as-is, unwrapped. -/
def decodeDeleteCheckRequest (parse : String → Except Error GoID) (idParam : String) :
    Except Error GoID :=
  if idParam = "" then
    .error (Error.mk (some .EInvalid) "url missing id" "" none)
  else
    match parse idParam with
    | .error e => .error e
    | .ok i => .ok i

/-- `decodePatchCheckRequest` (src/unnamed/part_000:274-304).  Unlike the GET
and DELETE decoders, both an identifier-parse failure and a JSON-decode
failure are wrapped in a fresh `EInvalid` error carrying the parser error's
message (`err.Error()`). -/
def decodePatchCheckRequest (parse : String → Except Error GoID)
    (idParam : String) (body : Except Error CheckUpdate) :
    Except Error (GoID × CheckUpdate) :=
  if idParam = "" then
    .error (Error.mk (some .EInvalid) "url missing id" "" none)
  else
    match parse idParam with
    | .error e => .error (Error.mk (some .EInvalid) e.text "" none)
    | .ok i =>
      match body with
      | .error e => .error (Error.mk (some .EInvalid) e.text "" none)
      | .ok cu => .ok (i, cu)

/-!
Theorems.
-/

/-- C7: decoding GET /checks — a present `limit` parameter parsing to an
out-of-range integer fails with the `EUnprocessableEntity` error "limit must
be between 1 and 500" and the service is never called; an absent parameter
decodes to the default page size 100; a present in-range parameter decodes to
that limit. -/
theorem decodeGetChecks_limit_spec (s : String) (lim : Int) :
    (decodeGetChecksRequest "" = .ok { CheckFilter.empty with Limit := CheckDefaultPageSize } ∧
      CheckDefaultPageSize = 100 ∧ CheckMaxPageSize = 500) ∧
    (goAtoi s = some lim → (lim < 1 ∨ lim > CheckMaxPageSize) →
      decodeGetChecksRequest s = .error (Error.mk (some .EUnprocessableEntity)
        "limit must be between 1 and 500" "" none) ∧
      handleGetChecksCallsService s = false) ∧
    (goAtoi s = some lim → 1 ≤ lim → lim ≤ CheckMaxPageSize →
      decodeGetChecksRequest s = .ok { CheckFilter.empty with Limit := lim }) := by
  have hmsg : ("limit must be between 1 and " ++ toString CheckMaxPageSize) =
      "limit must be between 1 and 500" := by decide
  refine ⟨⟨rfl, rfl, rfl⟩, ?_, ?_⟩
  · intro h hlim
    have hne : s ≠ "" := by
      rintro rfl
      rw [show goAtoi "" = none from rfl] at h
      exact Option.noConfusion h
    unfold handleGetChecksCallsService decodeGetChecksRequest
    rw [if_pos hne, h]
    dsimp only
    rw [if_pos hlim, hmsg]
    exact ⟨rfl, rfl⟩
  · intro h h1 h2
    have hne : s ≠ "" := by
      rintro rfl
      rw [show goAtoi "" = none from rfl] at h
      exact Option.noConfusion h
    have hmax : CheckMaxPageSize = (500 : Int) := rfl
    have hno : ¬(lim < 1 ∨ lim > CheckMaxPageSize) := by
      rw [hmax] at h2 ⊢
      omega
    unfold decodeGetChecksRequest
    rw [if_pos hne, h]
    dsimp only
    rw [if_neg hno]

/-- C7 witness: the three branches at the concrete limits "501", "42" and
the absent parameter. -/
theorem decodeGetChecks_limit_spec_witness :
    (decodeGetChecksRequest "501" = .error (Error.mk (some .EUnprocessableEntity)
      "limit must be between 1 and 500" "" none) ∧
     handleGetChecksCallsService "501" = false) ∧
    decodeGetChecksRequest "42" = .ok { CheckFilter.empty with Limit := 42 } ∧
    decodeGetChecksRequest "" = .ok { CheckFilter.empty with Limit := CheckDefaultPageSize } :=
  ⟨(decodeGetChecks_limit_spec "501" 501).2.1 (by decide) (by decide),
   (decodeGetChecks_limit_spec "42" 42).2.2 (by decide) (by decide) (by decide),
   ((decodeGetChecks_limit_spec "" 0).1).1⟩

/-- C8 counterexample: `handleGetChecks` does not pass the service error's
message through unmodified — a `FindChecks` error with message "check not
found" reaches the HTTP error handler wrapped in an error whose message is
"failed to find checks". -/
theorem handleGetChecks_rewrites_error_message :
    (handleGetChecksServiceError
        (Error.mk (some .ENotFound) "check not found" OpFindChecks none)).Msg =
      "failed to find checks" ∧
    (Error.mk (some .ENotFound) "check not found" OpFindChecks none).Msg =
      "check not found" ∧
    ("failed to find checks" = "check not found" → False) :=
  ⟨rfl, rfl, by decide⟩

/-- C8 amended: the GET-by-id, POST, PATCH and DELETE handlers pass the
service error to the HTTP error handler unmodified; `handleGetChecks` instead
wraps it in a fresh code-less error with message "failed to find checks",
retaining the service error only as the wrapped cause. -/
theorem handler_error_propagation (e : Error) :
    handleGetCheckServiceError e = e ∧
    handleCreateCheckServiceError e = e ∧
    handleUpdateCheckServiceError e = e ∧
    handleDeleteCheckServiceError e = e ∧
    handleGetChecksServiceError e = Error.mk none "failed to find checks" "" (some e) ∧
    (handleGetChecksServiceError e).Err = some e :=
  ⟨rfl, rfl, rfl, rfl, rfl, rfl⟩

/-- C9 counterexample: `decodeGetCheckRequest` forwards an identifier-parse
failure as-is — a plain (code-less) parser error reaches the caller still
carrying no `EInvalid` code, so decode failures are not classified `Invalid`
regardless of the underlying parser's error type. -/
theorem decodeGetCheck_forwards_parser_error :
    decodeGetCheckRequest
        (fun _ => .error (Error.mk none "id must have a length of 16 bytes" "" none))
        "notanid" =
      .error (Error.mk none "id must have a length of 16 bytes" "" none) ∧
    (Error.mk none "id must have a length of 16 bytes" "" none).Code = none ∧
    ((none : Option ErrCode) = some ErrCode.EInvalid → False) :=
  ⟨rfl, rfl, by decide⟩

/-- C9 amended: a missing path id yields `EInvalid` "url missing id" in the
GET, PATCH and DELETE decoders; the PATCH decoder wraps identifier-parse and
JSON-body failures as `EInvalid` regardless of the parser's error; the GET
and DELETE decoders forward the identifier parser's error unchanged, and the
POST decoder forwards the JSON parser's error unchanged, so there the
classification follows the underlying error. -/
theorem decode_failure_classification (parse : String → Except Error GoID)
    (idParam : String) (i : GoID) (e : Error) (body : Except Error CheckUpdate) :
    (decodeGetCheckRequest parse "" =
      .error (Error.mk (some .EInvalid) "url missing id" "" none)) ∧
    (decodeDeleteCheckRequest parse "" =
      .error (Error.mk (some .EInvalid) "url missing id" "" none)) ∧
    (decodePatchCheckRequest parse "" body =
      .error (Error.mk (some .EInvalid) "url missing id" "" none)) ∧
    (idParam ≠ "" → parse idParam = .error e →
      decodePatchCheckRequest parse idParam body =
        .error (Error.mk (some .EInvalid) e.text "" none) ∧
      decodeGetCheckRequest parse idParam = .error e ∧
      decodeDeleteCheckRequest parse idParam = .error e) ∧
    (idParam ≠ "" → parse idParam = .ok i → body = .error e →
      decodePatchCheckRequest parse idParam body =
        .error (Error.mk (some .EInvalid) e.text "" none)) ∧
    (decodePostCheckRequest (.error e) = .error e) := by
  refine ⟨rfl, rfl, rfl, ?_, ?_, rfl⟩
  · intro hne hp
    unfold decodePatchCheckRequest decodeGetCheckRequest decodeDeleteCheckRequest
    rw [if_neg hne, if_neg hne, hp]
    exact ⟨rfl, rfl, rfl⟩
  · intro hne hp hb
    unfold decodePatchCheckRequest
    rw [if_neg hne, hp]
    dsimp only
    rw [hb]

/-- C9 witness: the amended classification at a concrete parser, path id and
body. -/
theorem decode_failure_classification_witness :
    (decodeGetCheckRequest (fun _ => .ok 5) "" =
      .error (Error.mk (some .EInvalid) "url missing id" "" none)) ∧
    (decodePatchCheckRequest
        (fun _ => .error (Error.mk none "bad id" "" none)) "zzz"
        (.ok CheckUpdate.empty) =
      .error (Error.mk (some .EInvalid) "bad id" "" none)) ∧
    (decodeGetCheckRequest (fun _ => .error (Error.mk none "bad id" "" none)) "zzz" =
      .error (Error.mk none "bad id" "" none)) ∧
    (decodePatchCheckRequest (fun _ => .ok 5) "zzz"
        (.error (Error.mk none "unexpected EOF" "" none)) =
      .error (Error.mk (some .EInvalid) "unexpected EOF" "" none)) := by
  refine ⟨(decode_failure_classification (fun _ => .ok 5) "" 0
      (Error.mk none "x" "" none) (.ok CheckUpdate.empty)).1, ?_, ?_, ?_⟩
  · exact ((decode_failure_classification (fun _ => .error (Error.mk none "bad id" "" none))
      "zzz" 0 (Error.mk none "bad id" "" none) (.ok CheckUpdate.empty)).2.2.2.1
      (by decide) rfl).1
  · exact ((decode_failure_classification (fun _ => .error (Error.mk none "bad id" "" none))
      "zzz" 0 (Error.mk none "bad id" "" none) (.ok CheckUpdate.empty)).2.2.2.1
      (by decide) rfl).2.1
  · exact (decode_failure_classification (fun _ => .ok 5) "zzz" 5
      (Error.mk none "unexpected EOF" "" none)
      (.error (Error.mk none "unexpected EOF" "" none))).2.2.2.2.1
      (by decide) rfl rfl

/-- C10: every POST /checks body that JSON-decodes into the fieldless
internal `check` struct is rejected by `decodePostCheckRequest` with the
plain error "check requires an organization" — `toInfluxDB` always produces
the zero-valued `Check`, whose `OrganizationID` (0) is never valid — and
`handleCreateCheck` never invokes `CheckService.CreateCheck`, whatever the
body-decode outcome. -/
theorem postCheck_never_reaches_service :
    decodePostCheckRequest (.ok {}) =
      .error (Error.mk none "check requires an organization" "" none) ∧
    check.toInfluxDB {} = .ok Check.zero ∧
    Check.zero.OrganizationID = 0 ∧
    idValid Check.zero.OrganizationID = false ∧
    (∀ body : Except Error check, handleCreateCheckCallsService body = false) := by
  refine ⟨rfl, rfl, rfl, rfl, ?_⟩
  intro body
  cases body with
  | error e => rfl
  | ok c => rfl

/-- A valid check whose organization exists, whose (name, organization) pair
is not yet stored and whose generated identifier is fresh is created by
appending the record with the generated id and the clock's time in both
timestamp fields. -/
theorem createCheck_success (gen now : Nat) {s : ServiceState} {c : Check}
    (hv : c.Valid = none)
    (horg : ∃ o ∈ s.orgs, o.ID = c.OrganizationID)
    (hdup : ∀ k ∈ s.checks, ¬(k.Name = c.Name ∧ k.OrganizationID = c.OrganizationID))
    (hfresh : ∀ k ∈ s.checks, k.ID ≠ gen) :
    createCheck gen now s c =
      (.ok { c with ID := gen, crudLog := { CreatedAt := now, UpdatedAt := now } },
       { s with checks :=
          s.checks ++ [{ c with ID := gen, crudLog := { CreatedAt := now, UpdatedAt := now } }] }) := by
  have h1 : (s.orgs.any (fun o => o.ID == c.OrganizationID)) = true := by
    rcases horg with ⟨o, ho, hoid⟩
    exact List.any_eq_true.2 ⟨o, ho, by simpa using hoid⟩
  have h2 : (s.checks.any
      (fun k => k.Name == c.Name && k.OrganizationID == c.OrganizationID)) = false := by
    rw [List.any_eq_false]
    intro k hk
    simp only [Bool.and_eq_true, beq_iff_eq, not_and]
    intro hn ho
    exact absurd ⟨hn, ho⟩ (hdup k hk)
  have h3 : (s.checks.any (fun k => k.ID == gen)) = false := by
    rw [List.any_eq_false]
    intro k hk
    simpa using hfresh k hk
  have hid : ({ c with ID := gen, crudLog := { CreatedAt := now, UpdatedAt := now } } : Check).ID = gen := rfl
  unfold createCheck
  rw [hv]
  dsimp only
  rw [if_pos h1, if_neg (by rw [h2]; exact Bool.false_ne_true)]
  unfold putCheck
  rw [if_neg (by rw [hid, h3]; exact Bool.false_ne_true)]

/-- C1 counterexample: in a stored state that contains a check named "check1"
in organization 42 but whose organization set is empty, creating another
"check1" in organization 42 fails with the `NotFound` "organization not
found" error — not the `Conflict` error the claim requires — because the
organization-existence check precedes the uniqueness check. -/
theorem createCheck_conflict_requires_org :
    (createCheck 7 3
        (ServiceState.mk []
          [{ Check.zero with ID := 5, Name := "check1", OrganizationID := 42 }])
        { Check.zero with Name := "check1", OrganizationID := 42 }).1 =
      .error (Error.mk (some .ENotFound) "organization not found" OpCreateCheck none) ∧
    (ErrCode.ENotFound = ErrCode.EConflict → False) :=
  ⟨rfl, by decide⟩

/-- C1 amended: if additionally the organization is present in the stored
state and the argument check passes validation, creating a check whose name
is already taken within that organization fails with the `Conflict` error
"check with name N already exists" and leaves the stored state unchanged. -/
theorem createCheck_duplicate_name_conflict (gen now : Nat) (s : ServiceState)
    (c ex : Check)
    (hv : c.Valid = none)
    (horg : ∃ o ∈ s.orgs, o.ID = c.OrganizationID)
    (hex : ex ∈ s.checks) (hexN : ex.Name = c.Name)
    (hexO : ex.OrganizationID = c.OrganizationID) :
    createCheck gen now s c =
      (.error (Error.mk (some .EConflict)
        ("check with name " ++ c.Name ++ " already exists") OpCreateCheck none), s) := by
  have h1 : (s.orgs.any (fun o => o.ID == c.OrganizationID)) = true := by
    rcases horg with ⟨o, ho, hoid⟩
    exact List.any_eq_true.2 ⟨o, ho, by simpa using hoid⟩
  have h2 : (s.checks.any
      (fun k => k.Name == c.Name && k.OrganizationID == c.OrganizationID)) = true :=
    List.any_eq_true.2 ⟨ex, hex, by simp [hexN, hexO]⟩
  unfold createCheck
  rw [hv]
  dsimp only
  rw [if_pos h1, if_pos h2]

/-- C1 witness: the conformance scenario — organization `theorg`, stored
check "check1", creating another "check1" in the same organization. -/
theorem createCheck_duplicate_name_conflict_witness :
    createCheck 2 5
        (ServiceState.mk [Organization.mk 7 "theorg"]
          [{ Check.zero with ID := 1, Name := "check1", OrganizationID := 7 }])
        { Check.zero with Name := "check1", OrganizationID := 7 } =
      (.error (Error.mk (some .EConflict) "check with name check1 already exists"
        OpCreateCheck none),
       ServiceState.mk [Organization.mk 7 "theorg"]
        [{ Check.zero with ID := 1, Name := "check1", OrganizationID := 7 }]) :=
  createCheck_duplicate_name_conflict 2 5
    (ServiceState.mk [Organization.mk 7 "theorg"]
      [{ Check.zero with ID := 1, Name := "check1", OrganizationID := 7 }])
    { Check.zero with Name := "check1", OrganizationID := 7 }
    { Check.zero with ID := 1, Name := "check1", OrganizationID := 7 }
    rfl ⟨Organization.mk 7 "theorg", by decide, rfl⟩ (by decide) rfl rfl

/-- C3 counterexample: creating a check with an empty name against a state
with no organizations fails with the `EInvalid` validation error, not the
`NotFound` "organization not found" error the claim requires for every
argument check — validation precedes the organization-existence check. -/
theorem createCheck_validation_precedes_org_check :
    (createCheck 1 1 (ServiceState.mk [] [])
        { Check.zero with OrganizationID := 42 }).1 =
      .error (Error.mk (some .EInvalid) "check name cannot be empty" OpCreateCheck none) ∧
    (ErrCode.EInvalid = ErrCode.ENotFound → False) :=
  ⟨rfl, by decide⟩

/-- C3 amended: if additionally the argument check passes validation,
creating it against a state whose organization set does not contain its
`OrganizationID` fails with the `NotFound` "organization not found" error
with operation `OpCreateCheck`, and the stored state is unchanged (no
record, id, or timestamp is created). -/
theorem createCheck_missing_org_not_found (gen now : Nat) (s : ServiceState)
    (c : Check)
    (hv : c.Valid = none)
    (horg : ∀ o ∈ s.orgs, o.ID ≠ c.OrganizationID) :
    createCheck gen now s c =
      (.error (Error.mk (some .ENotFound) "organization not found" OpCreateCheck none), s) := by
  have h1 : (s.orgs.any (fun o => o.ID == c.OrganizationID)) = false := by
    rw [List.any_eq_false]
    intro o ho
    simpa using horg o ho
  unfold createCheck
  rw [hv]
  dsimp only
  rw [if_neg (by rw [h1]; exact Bool.false_ne_true)]

/-- C3 witness: the conformance scenario "create check with orgID not
exist" — an empty organization set. -/
theorem createCheck_missing_org_not_found_witness :
    createCheck 1 5 (ServiceState.mk [] [])
        { Check.zero with Name := "name1", OrganizationID := 42 } =
      (.error (Error.mk (some .ENotFound) "organization not found" OpCreateCheck none),
       ServiceState.mk [] []) :=
  createCheck_missing_org_not_found 1 5 (ServiceState.mk [] [])
    { Check.zero with Name := "name1", OrganizationID := 42 }
    rfl (by decide)

/-- The round-trip input of property §8: Name "name1", the given
organization, Description "desc1", every other field zero. -/
def roundtripInput (O : GoID) : Check :=
  { Check.zero with Name := "name1", OrganizationID := O, Description := "desc1" }

/-- C5 counterexample: in a state whose organization set contains O but
which already stores a check named "name1" in O, the claimed round-trip
fails at its first step — `CreateCheck` returns the `Conflict` error and the
stored state is unchanged, so no record with the input's fields, a fresh id
and non-zero timestamps is ever retrievable. -/
theorem createCheck_roundtrip_conflict_cex :
    createCheck 9 5
        (ServiceState.mk [Organization.mk 7 "theorg"]
          [{ Check.zero with ID := 3, Name := "name1", OrganizationID := 7, Description := "old" }])
        (roundtripInput 7) =
      (.error (Error.mk (some .EConflict) "check with name name1 already exists"
        OpCreateCheck none),
       ServiceState.mk [Organization.mk 7 "theorg"]
        [{ Check.zero with ID := 3, Name := "name1", OrganizationID := 7, Description := "old" }]) :=
  rfl

/-- C5 amended: if additionally no check named "name1" is stored in O, the
generated identifier is fresh and the injected generator and clock values
are non-zero, creating {Name "name1", OrganizationID O, Description "desc1"}
and finding the assigned id returns a record equal to the input in all
fields except the server-assigned `ID` (the generator's value, non-zero) and
the timestamps (both the injected clock's time, non-zero). -/
theorem createCheck_findCheckByID_roundtrip (gen now : Nat) (s : ServiceState)
    (O : GoID)
    (horg : ∃ o ∈ s.orgs, o.ID = O)
    (hname : ∀ k ∈ s.checks, ¬(k.Name = "name1" ∧ k.OrganizationID = O))
    (hfresh : ∀ k ∈ s.checks, k.ID ≠ gen)
    (hgen : gen ≠ 0) (hnow : now ≠ 0) :
    ∃ nc s', createCheck gen now s (roundtripInput O) = (.ok nc, s') ∧
      findCheckByID s' nc.ID = .ok nc ∧
      nc.ID = gen ∧ nc.ID ≠ 0 ∧
      nc.crudLog.CreatedAt = now ∧ nc.crudLog.UpdatedAt = now ∧
      nc.crudLog.CreatedAt ≠ 0 ∧ nc.crudLog.UpdatedAt ≠ 0 ∧
      nc.Name = (roundtripInput O).Name ∧
      nc.OrganizationID = (roundtripInput O).OrganizationID ∧
      nc.Description = (roundtripInput O).Description ∧
      nc.Tags = (roundtripInput O).Tags ∧
      nc.Query = (roundtripInput O).Query ∧
      nc.StatusMessageTemplate = (roundtripInput O).StatusMessageTemplate ∧
      nc.TaskID = (roundtripInput O).TaskID := by
  have hv : (roundtripInput O).Valid = none := rfl
  have hsucc := createCheck_success gen now hv horg
    (by intro k hk; exact hname k hk) hfresh
  refine ⟨_, _, hsucc, ?_, rfl, hgen, rfl, rfl, hnow, hnow, rfl, rfl, rfl, rfl, rfl, rfl, rfl⟩
  unfold findCheckByID
  have hnone : (s.checks.find? (fun k => k.ID == ({ roundtripInput O with ID := gen, crudLog := { CreatedAt := now, UpdatedAt := now } } : Check).ID)) = none := by
    rw [List.find?_eq_none]
    intro k hk
    simpa using hfresh k hk
  rw [List.find?_append, hnone]
  simp [List.find?]

/-- C5 witness: the amended round-trip at the concrete conformance seed. -/
theorem createCheck_findCheckByID_roundtrip_witness :
    ∃ nc s', createCheck 11 5 (ServiceState.mk [Organization.mk 7 "theorg"] [])
        (roundtripInput 7) = (.ok nc, s') ∧
      findCheckByID s' nc.ID = .ok nc ∧
      nc.ID = 11 ∧ nc.ID ≠ 0 ∧
      nc.crudLog.CreatedAt = 5 ∧ nc.crudLog.UpdatedAt = 5 ∧
      nc.crudLog.CreatedAt ≠ 0 ∧ nc.crudLog.UpdatedAt ≠ 0 ∧
      nc.Name = (roundtripInput 7).Name ∧
      nc.OrganizationID = (roundtripInput 7).OrganizationID ∧
      nc.Description = (roundtripInput 7).Description ∧
      nc.Tags = (roundtripInput 7).Tags ∧
      nc.Query = (roundtripInput 7).Query ∧
      nc.StatusMessageTemplate = (roundtripInput 7).StatusMessageTemplate ∧
      nc.TaskID = (roundtripInput 7).TaskID :=
  createCheck_findCheckByID_roundtrip 11 5
    (ServiceState.mk [Organization.mk 7 "theorg"] []) 7
    ⟨Organization.mk 7 "theorg", by decide, rfl⟩
    (by intro k hk; simp at hk)
    (by intro k hk; simp at hk)
    (by decide) (by decide)

/-- `FindChecks` with the empty filter and default options returns every
stored check, in stored order, together with the total count. -/
theorem findChecks_empty (s : ServiceState) :
    findChecks s CheckFilter.empty FindOptions.default = .ok (s.checks, s.checks.length) := by
  unfold findChecks CheckFilter.empty FindOptions.default
  simp [checkMatches]

/-- C4: deleting a stored id removes exactly the records carrying that id
and leaves every other stored check unchanged — a subsequent `FindChecks`
with the empty filter returns exactly the remaining checks, and a second
delete of the same id fails `NotFound` "check not found" with operation
`OpDeleteCheck` leaving the state unchanged; deleting an absent id fails the
same way with the state entirely unchanged. -/
theorem deleteCheck_frame_and_idempotent (s : ServiceState) (i : GoID) :
    ((s.checks.any (fun c => c.ID == i)) = true →
      deleteCheck s i = (none, { s with checks := s.checks.filter (fun c => c.ID != i) }) ∧
      findChecks { s with checks := s.checks.filter (fun c => c.ID != i) }
          CheckFilter.empty FindOptions.default =
        .ok (s.checks.filter (fun c => c.ID != i),
             (s.checks.filter (fun c => c.ID != i)).length) ∧
      deleteCheck { s with checks := s.checks.filter (fun c => c.ID != i) } i =
        (some (Error.mk (some .ENotFound) "check not found" OpDeleteCheck none),
         { s with checks := s.checks.filter (fun c => c.ID != i) })) ∧
    ((s.checks.any (fun c => c.ID == i)) = false →
      deleteCheck s i =
        (some (Error.mk (some .ENotFound) "check not found" OpDeleteCheck none), s)) := by
  have hsecond : ((s.checks.filter (fun c => c.ID != i)).any (fun c => c.ID == i)) = false := by
    rw [List.any_eq_false]
    intro c hc
    rcases List.mem_filter.1 hc with ⟨_, hne⟩
    simp only [bne_iff_ne, ne_eq] at hne
    simpa using hne
  constructor
  · intro h
    refine ⟨?_, ?_, ?_⟩
    · unfold deleteCheck
      rw [if_pos h]
    · exact findChecks_empty { s with checks := s.checks.filter (fun c => c.ID != i) }
    · unfold deleteCheck
      rw [if_neg (by rw [hsecond]; exact Bool.false_ne_true)]
  · intro h
    unfold deleteCheck
    rw [if_neg (by rw [h]; exact Bool.false_ne_true)]

/-- C4 witness: the conformance scenario — checks "A" and "B" in `theorg`,
delete of the stored `checkOneID`-analogue, then of an absent id. -/
theorem deleteCheck_frame_and_idempotent_witness :
    (deleteCheck
        (ServiceState.mk [Organization.mk 7 "theorg"]
          [{ Check.zero with ID := 1, Name := "A", OrganizationID := 7 },
           { Check.zero with ID := 3, Name := "B", OrganizationID := 7 }]) 1).2.checks =
      [{ Check.zero with ID := 3, Name := "B", OrganizationID := 7 }] ∧
    deleteCheck
        (ServiceState.mk [Organization.mk 7 "theorg"]
          [{ Check.zero with ID := 1, Name := "A", OrganizationID := 7 },
           { Check.zero with ID := 3, Name := "B", OrganizationID := 7 }]) 9 =
      (some (Error.mk (some .ENotFound) "check not found" OpDeleteCheck none),
       ServiceState.mk [Organization.mk 7 "theorg"]
        [{ Check.zero with ID := 1, Name := "A", OrganizationID := 7 },
         { Check.zero with ID := 3, Name := "B", OrganizationID := 7 }]) := by
  constructor
  · rw [((deleteCheck_frame_and_idempotent
      (ServiceState.mk [Organization.mk 7 "theorg"]
        [{ Check.zero with ID := 1, Name := "A", OrganizationID := 7 },
         { Check.zero with ID := 3, Name := "B", OrganizationID := 7 }]) 1).1
      (by decide)).1]
    rfl
  · exact (deleteCheck_frame_and_idempotent
      (ServiceState.mk [Organization.mk 7 "theorg"]
        [{ Check.zero with ID := 1, Name := "A", OrganizationID := 7 },
         { Check.zero with ID := 3, Name := "B", OrganizationID := 7 }]) 9).2
      (by decide)

/-- The seed of the conformance test "update name unique": checks "check1"
(id 1) and "check2" (id 2) in the same organization. -/
def renameSeed : ServiceState :=
  ServiceState.mk [Organization.mk 7 "theorg"]
    [{ Check.zero with ID := 1, Name := "check1", OrganizationID := 7 },
     { Check.zero with ID := 2, Name := "check2", OrganizationID := 7 }]

/-- C6: a `CheckUpdate` cannot carry a name change — applying any update
leaves the stored name unchanged — so `UpdateCheck` never reaches the
`Conflict` "check name is not unique" branch.  At the conformance test's
"update name unique" seed, the update the test actually constructs (only the
`Description` pointer is ever set, and it is absent in that case) succeeds,
returning "check1" with only `UpdatedAt` stamped, instead of the `Conflict`
error the test expects. -/
theorem updateCheck_cannot_rename :
    (∀ (u : CheckUpdate) (now : Nat) (c : Check), (applyCheckUpdate u now c).Name = c.Name) ∧
    (updateCheck 99 renameSeed 1 CheckUpdate.empty).1 =
      .ok { Check.zero with ID := 1, Name := "check1", OrganizationID := 7, crudLog := CRUDLog.mk 0 99 } ∧
    (updateCheck 99 renameSeed 1 CheckUpdate.empty).1.isOk = true ∧
    (updateCheck 99 renameSeed 1 CheckUpdate.empty).2.checks.map Check.Name =
      ["check1", "check2"] := by
  refine ⟨?_, rfl, rfl, rfl⟩
  intro u now c
  rfl

/-- The per-organization name-uniqueness property: no two stored checks
share both their name and their organization. -/
def checksUnique (l : List Check) : Prop :=
  l.Pairwise (fun a b => ¬(a.Name = b.Name ∧ a.OrganizationID = b.OrganizationID))

/-- The full store invariant: stored identifiers are pairwise distinct (the
backing store is a map keyed by id) and names are unique per organization. -/
def storeInv (l : List Check) : Prop :=
  l.Pairwise (fun a b =>
    a.ID ≠ b.ID ∧ ¬(a.Name = b.Name ∧ a.OrganizationID = b.OrganizationID))

/-- States reachable through the service operations from a state with no
checks, allowing arbitrary external reseeding of the organization set
(organization CRUD is an external collaborator). -/
inductive Reachable : ServiceState → Prop where
  | seed (orgs : List Organization) : Reachable (ServiceState.mk orgs [])
  | orgops (orgs' : List Organization) {s : ServiceState} :
      Reachable s → Reachable (ServiceState.mk orgs' s.checks)
  | createStep (gen now : Nat) (c : Check) {s : ServiceState} :
      Reachable s → Reachable (createCheck gen now s c).2
  | updateStep (now : Nat) (i : GoID) (u : CheckUpdate) {s : ServiceState} :
      Reachable s → Reachable (updateCheck now s i u).2
  | deleteStep (i : GoID) {s : ServiceState} :
      Reachable s → Reachable (deleteCheck s i).2

/-- In a store with pairwise-distinct identifiers, two stored records with
the same identifier are the same record. -/
theorem storeInv_mem_eq :
    ∀ {l : List Check}, storeInv l →
      ∀ {a b : Check}, a ∈ l → b ∈ l → a.ID = b.ID → a = b := by
  intro l
  induction l with
  | nil =>
    intro _ a b ha
    exact absurd ha (List.not_mem_nil a)
  | cons x t ih =>
    intro h a b ha hb hid
    unfold storeInv at h
    rw [List.pairwise_cons] at h
    rcases h with ⟨hx, ht⟩
    rcases List.mem_cons.1 ha with rfl | ha'
    · rcases List.mem_cons.1 hb with rfl | hb'
      · rfl
      · exact absurd hid (hx b hb').1
    · rcases List.mem_cons.1 hb with rfl | hb'
      · exact absurd hid.symm (hx a ha').1
      · exact ih ht ha' hb' hid

/-- Persisting a record whose (name, organization) pair is absent from the
store preserves the store invariant, whether the put overwrites in place or
appends. -/
theorem putCheck_inv {l : List Check} {nc : Check} (h : storeInv l)
    (hnew : ∀ k ∈ l, ¬(k.Name = nc.Name ∧ k.OrganizationID = nc.OrganizationID)) :
    storeInv (putCheck l nc) := by
  unfold storeInv at h ⊢
  unfold putCheck
  by_cases h3 : (l.any (fun k => k.ID == nc.ID)) = true
  · rw [if_pos h3, List.pairwise_map]
    refine h.imp_of_mem ?_
    intro a b ha hb hab
    by_cases hA : (a.ID == nc.ID) = true <;> by_cases hB : (b.ID == nc.ID) = true
    · rw [beq_iff_eq] at hA hB
      exact absurd (hA.trans hB.symm) hab.1
    · rw [if_pos hA, if_neg hB]
      rw [beq_iff_eq] at hA
      refine ⟨by rw [← hA]; exact hab.1, ?_⟩
      intro hcon
      exact hnew b hb ⟨hcon.1.symm, hcon.2.symm⟩
    · rw [if_neg hA, if_pos hB]
      rw [beq_iff_eq] at hB
      refine ⟨by rw [← hB]; exact hab.1, ?_⟩
      intro hcon
      exact hnew a ha ⟨hcon.1, hcon.2⟩
    · rw [if_neg hA, if_neg hB]
      exact hab
  · rw [if_neg h3, List.pairwise_append]
    refine ⟨h, List.pairwise_singleton _ _, ?_⟩
    intro a ha b hb
    rw [List.mem_singleton] at hb
    have h3' : (l.any (fun k => k.ID == nc.ID)) = false := Bool.eq_false_iff.2 h3
    subst hb
    constructor
    · have := List.any_eq_false.1 h3' a ha
      simpa using this
    · exact hnew a ha

/-- `createCheck` preserves the store invariant: its only write is a
`putCheck` of a record whose (name, organization) pair passed the uniqueness
check. -/
theorem createCheck_inv (gen now : Nat) (c : Check) {s : ServiceState}
    (h : storeInv s.checks) : storeInv (createCheck gen now s c).2.checks := by
  cases hv : c.Valid with
  | some e =>
    unfold createCheck
    rw [hv]
    exact h
  | none =>
    unfold createCheck
    rw [hv]
    dsimp only
    by_cases h1 : (s.orgs.any (fun o => o.ID == c.OrganizationID)) = true
    · rw [if_pos h1]
      by_cases h2 : (s.checks.any
          (fun k => k.Name == c.Name && k.OrganizationID == c.OrganizationID)) = true
      · rw [if_pos h2]
        exact h
      · rw [if_neg h2]
        refine putCheck_inv h ?_
        intro k hk hcon
        exact h2 (List.any_eq_true.2 ⟨k, hk, by simp [hcon.1, hcon.2]⟩)
    · rw [if_neg h1]
      exact h

/-- `updateCheck` preserves the store invariant: a `CheckUpdate` can change
neither the name nor the organization nor the identifier of the stored
record it replaces. -/
theorem updateCheck_inv (now : Nat) (i : GoID) (u : CheckUpdate) {s : ServiceState}
    (h : storeInv s.checks) : storeInv (updateCheck now s i u).2.checks := by
  cases hf : s.checks.find? (fun c => c.ID == i) with
  | none =>
    unfold updateCheck
    rw [hf]
    exact h
  | some c =>
    unfold updateCheck
    rw [hf]
    dsimp only
    have hname : (applyCheckUpdate u now c).Name = c.Name := rfl
    have hcond : ((applyCheckUpdate u now c).Name != c.Name &&
        (s.checks.any (fun k => k.ID != i && k.Name == (applyCheckUpdate u now c).Name
          && k.OrganizationID == c.OrganizationID))) = false := by
      rw [hname, bne_self_eq_false, Bool.false_and]
    rw [if_neg (by rw [hcond]; exact Bool.false_ne_true)]
    have hc_mem : c ∈ s.checks := List.mem_of_find?_eq_some hf
    have hc_id : c.ID = i := by
      have := List.find?_some hf
      simpa using this
    unfold storeInv at h ⊢
    rw [List.pairwise_map]
    refine h.imp_of_mem ?_
    intro a b ha hb hab
    have key : ∀ k ∈ s.checks, (k.ID == i) = true → k = c := by
      intro k hk hki
      rw [beq_iff_eq] at hki
      exact storeInv_mem_eq h hk hc_mem (by rw [hki, hc_id])
    by_cases hA : (a.ID == i) = true <;> by_cases hB : (b.ID == i) = true
    · rw [beq_iff_eq] at hA hB
      exact absurd (hA.trans hB.symm) hab.1
    · rw [if_pos hA, if_neg hB]
      have ha' : a = c := key a ha hA
      subst ha'
      exact ⟨hab.1, hab.2⟩
    · rw [if_neg hA, if_pos hB]
      have hb' : b = c := key b hb hB
      subst hb'
      exact ⟨hab.1, hab.2⟩
    · rw [if_neg hA, if_neg hB]
      exact hab

/-- `deleteCheck` preserves the store invariant: its only write is a
filter. -/
theorem deleteCheck_inv (i : GoID) {s : ServiceState}
    (h : storeInv s.checks) : storeInv (deleteCheck s i).2.checks := by
  unfold storeInv at h ⊢
  unfold deleteCheck
  by_cases hd : (s.checks.any (fun c => c.ID == i)) = true
  · rw [if_pos hd]
    exact h.sublist (List.filter_sublist _)
  · rw [if_neg hd]
    exact h

/-- Every reachable state satisfies the store invariant. -/
theorem reachable_storeInv {s : ServiceState} (h : Reachable s) :
    storeInv s.checks := by
  induction h with
  | seed orgs => exact List.Pairwise.nil
  | orgops orgs' _ ih => exact ih
  | createStep gen now c _ ih => exact createCheck_inv gen now c ih
  | updateStep now i u _ ih => exact updateCheck_inv now i u ih
  | deleteStep i _ ih => exact deleteCheck_inv i ih

/-- C2: in every reachable state at most one check carries a given (name,
organization) pair — name uniqueness per organization is an invariant of all
service operations — while the same name may exist under two different
organizations: creating a check whose name is already used in a different
organization (the target organization existing, the name free there, the
check valid and the generated id fresh) succeeds, and both checks are
stored afterwards. -/
theorem checks_unique_per_org_invariant :
    (∀ s : ServiceState, Reachable s → checksUnique s.checks) ∧
    (∀ (gen now : Nat) (s : ServiceState) (c ex : Check),
      ex ∈ s.checks → ex.Name = c.Name → ex.OrganizationID ≠ c.OrganizationID →
      c.Valid = none →
      (∃ o ∈ s.orgs, o.ID = c.OrganizationID) →
      (∀ k ∈ s.checks, ¬(k.Name = c.Name ∧ k.OrganizationID = c.OrganizationID)) →
      (∀ k ∈ s.checks, k.ID ≠ gen) →
      (createCheck gen now s c).1 = .ok { c with ID := gen, crudLog := CRUDLog.mk now now } ∧
      ex ∈ (createCheck gen now s c).2.checks ∧
      { c with ID := gen, crudLog := CRUDLog.mk now now } ∈ (createCheck gen now s c).2.checks) := by
  constructor
  · intro s hs
    have hinv := reachable_storeInv hs
    unfold storeInv at hinv
    unfold checksUnique
    exact hinv.imp (fun hr => hr.2)
  · intro gen now s c ex hex hexN hexO hv horg hdup hfresh
    have hsucc := createCheck_success gen now hv horg hdup hfresh
    rw [hsucc]
    exact ⟨rfl, List.mem_append_left _ hex,
      List.mem_append_right _ (List.mem_singleton.2 rfl)⟩

/-- C2 witness: the invariant at a state reached by one successful create,
and the cross-organization create of the conformance scenario "names should
not be unique across organizations". -/
theorem checks_unique_per_org_invariant_witness :
    checksUnique (createCheck 11 5 (ServiceState.mk [Organization.mk 7 "theorg"] [])
      (roundtripInput 7)).2.checks ∧
    ((createCheck 2 5
        (ServiceState.mk [Organization.mk 7 "theorg", Organization.mk 8 "otherorg"]
          [{ Check.zero with ID := 1, Name := "check1", OrganizationID := 7 }])
        { Check.zero with Name := "check1", OrganizationID := 8 }).1 =
      .ok { Check.zero with Name := "check1", OrganizationID := 8, ID := 2, crudLog := CRUDLog.mk 5 5 } ∧
     { Check.zero with ID := 1, Name := "check1", OrganizationID := 7 } ∈
      (createCheck 2 5
        (ServiceState.mk [Organization.mk 7 "theorg", Organization.mk 8 "otherorg"]
          [{ Check.zero with ID := 1, Name := "check1", OrganizationID := 7 }])
        { Check.zero with Name := "check1", OrganizationID := 8 }).2.checks ∧
     { Check.zero with Name := "check1", OrganizationID := 8, ID := 2, crudLog := CRUDLog.mk 5 5 } ∈
      (createCheck 2 5
        (ServiceState.mk [Organization.mk 7 "theorg", Organization.mk 8 "otherorg"]
          [{ Check.zero with ID := 1, Name := "check1", OrganizationID := 7 }])
        { Check.zero with Name := "check1", OrganizationID := 8 }).2.checks) := by
  constructor
  · exact checks_unique_per_org_invariant.1 _
      (Reachable.createStep 11 5 (roundtripInput 7)
        (Reachable.seed [Organization.mk 7 "theorg"]))
  · exact checks_unique_per_org_invariant.2 2 5
      (ServiceState.mk [Organization.mk 7 "theorg", Organization.mk 8 "otherorg"]
        [{ Check.zero with ID := 1, Name := "check1", OrganizationID := 7 }])
      { Check.zero with Name := "check1", OrganizationID := 8 }
      { Check.zero with ID := 1, Name := "check1", OrganizationID := 7 }
      (by decide) rfl (by decide) rfl
      ⟨Organization.mk 8 "otherorg", by decide, rfl⟩
      (by decide) (by decide)

end Influx
